import Mathlib

/-!
Verification of the `memhash` and `memyara` Immunity Debugger PyCommands.

The two scripts are command dispatchers: they parse a short option string
(via CPython's `getopt`), validate a pair of hexadecimal address arguments
or a module name, delegate to the host debugger for memory reads and module
metadata, and format results into the debugger's log/table widgets.

The embedding models the host debugger, the `pefile` PE parser, the MD5
digest and the Yara engine as oracles bundled in an `Env` structure, and
records every observable interaction with the host in an event trace.
Computations live in `M α := List Event × Except PyExc α`: the event list
is the sequence of host interactions performed so far, and the `Except`
component distinguishes a normal return value from a propagating Python
exception.
-/

deriving instance DecidableEq for Except

/-- A Python value appearing in a Yara match's `strings` entries or a table
row: an integer, a string, or a byte string. -/
inductive Cell
  | int (i : Int)
  | str (s : String)
  | bytes (b : List Nat)
deriving DecidableEq

/-- Python exceptions that the modelled code can raise or catch. -/
inductive PyExc
  | zeroDivisionError
  | peFormatError (msg : String)
  | indexError
  | typeError
  | yaraSyntaxError
  | yaraError
  | otherError (msg : String)
deriving DecidableEq

/-- An observable interaction with the host debugger or an external library. -/
inductive Event
  | log (msg : String)
  | getModule (name : String)
  | readMemory (addr len : Int)
  | md5 (data : List Nat)
  | yaraMatch (data : List Nat)
  | compile (path : String)
  | createTable (title : String) (cols : List String)
  | tableAdd (row : Nat) (vals : List Cell)
deriving DecidableEq

/-- A loaded module as returned by `imm.getModule` (called `Module` in the
host API; renamed here to avoid the ambient algebraic `Module`): exposes
`getBaseAddress()`, `getSize()`, `getPath()` and `.name`. -/
structure ImmModule where
  baseAddress : Nat
  size : Nat
  path : String
  name : String
deriving DecidableEq

/-- A PE section as exposed by `pefile`: `.Name`, `.VirtualAddress`,
`.Misc_VirtualSize`. -/
structure PESection where
  Name : String
  VirtualAddress : Nat
  Misc_VirtualSize : Nat
deriving DecidableEq

/-- A parsed PE file as returned by `pefile.PE`: the section list and
`OPTIONAL_HEADER.SectionAlignment`. -/
structure PEFile where
  sections : List PESection
  sectionAlignment : Nat
deriving DecidableEq

/-- A Yara match record: a rule name and the `strings` sequence. -/
structure YaraMatch where
  rule : String
  strings : List Cell
deriving DecidableEq

/-- Compiled Yara rules: `match(data=...)` returns a list of match records. -/
structure YaraRules where
  matchData : List Nat → List YaraMatch

/-- The oracle environment: the host debugger's memory/module interface, the
`pefile` parser (which may raise), the MD5 hex digest, and `yara.compile`
(which may raise). -/
structure Env where
  getModuleF : String → Option ImmModule
  readMemoryF : Int → Int → List Nat
  peF : String → Except PyExc PEFile
  md5hex : List Nat → String
  yaraCompile : String → Except PyExc YaraRules

/-- The effect type of the embedded scripts: an event trace plus either a
normal return value or a propagating exception. -/
def M (α : Type) : Type := List Event × Except PyExc α

/-- Return a value with no events. -/
def M.pure {α : Type} (a : α) : M α := ([], Except.ok a)

/-- Sequence two computations, concatenating their event traces; an
exception short-circuits. -/
def M.bind {α β : Type} (x : M α) (f : α → M β) : M β :=
  match x with
  | (evs, Except.error e) => (evs, Except.error e)
  | (evs, Except.ok a) =>
    match f a with
    | (evs2, r) => (evs ++ evs2, r)

/-- Raise a Python exception. -/
def M.raise {α : Type} (e : PyExc) : M α := ([], Except.error e)

/-- Lift a fallible pure computation into `M`. -/
def liftE {α : Type} : Except PyExc α → M α
  | Except.ok a => ([], Except.ok a)
  | Except.error e => ([], Except.error e)

/-- Models `imm.log(msg)`. -/
def imm_log (msg : String) : M Unit := ([Event.log msg], Except.ok ())

/-- Models `imm.getModule(name)`: records the lookup and consults the oracle. -/
def imm_getModule (env : Env) (name : String) : M (Option ImmModule) :=
  ([Event.getModule name], Except.ok (env.getModuleF name))

/-- Models `imm.readMemory(addr, len)`: records the read and consults the oracle. -/
def imm_readMemory (env : Env) (addr len : Int) : M (List Nat) :=
  ([Event.readMemory addr len], Except.ok (env.readMemoryF addr len))

/-- Python whitespace as stripped by `int(s, 16)` (`' \t\n\r\v\f'`). -/
def isPySpace (c : Char) : Bool :=
  c = ' ' || c = '\t' || c = '\n' || c = '\r' || c = '\x0b' || c = '\x0c'

/-- Value of a hexadecimal digit character, `none` for non-digits. -/
def hexDigitVal (c : Char) : Option Nat :=
  if '0' ≤ c ∧ c ≤ '9' then some (c.toNat - '0'.toNat)
  else if 'a' ≤ c ∧ c ≤ 'f' then some (c.toNat - 'a'.toNat + 10)
  else if 'A' ≤ c ∧ c ≤ 'F' then some (c.toNat - 'A'.toNat + 10)
  else none

/-- Accumulate hexadecimal digits; `none` on the first non-digit. -/
def parseHexDigits : Nat → List Char → Option Nat
  | acc, [] => some acc
  | acc, c :: r =>
    match hexDigitVal c with
    | some d => parseHexDigits (acc * 16 + d) r
    | none => none

/-- Strip leading and trailing Python whitespace from a character list. -/
def pyStrip (l : List Char) : List Char :=
  ((l.dropWhile isPySpace).reverse.dropWhile isPySpace).reverse

/-- Python 2's `int(s, 16)`: optional surrounding whitespace, an optional
sign, an optional `0x`/`0X` prefix, then at least one hex digit. `none`
models the `ValueError` path. -/
def pyIntHex (s : String) : Option Int :=
  let l := pyStrip s.data
  let sl : Int × List Char :=
    match l with
    | '+' :: r => (1, r)
    | '-' :: r => (-1, r)
    | _ => (1, l)
  let l2 : List Char :=
    match sl.2 with
    | '0' :: c :: r => if c = 'x' ∨ c = 'X' then r else '0' :: c :: r
    | r => r
  match l2 with
  | [] => none
  | _ => (parseHexDigits 0 l2).map (fun n => sl.1 * (n : Int))

/-- Python's `s.split(sep)` for a one-character separator, over character
lists (structural, so it reduces in the kernel). -/
def splitOnChar (sep : Char) : List Char → List (List Char)
  | [] => [[]]
  | c :: r =>
    let rest := splitOnChar sep r
    if c = sep then [] :: rest
    else
      match rest with
      | [] => [[c]]
      | h :: t => (c :: h) :: t

/-- Last element of a list with a default (structural). -/
def lastD {α : Type} (d : α) : List α → α
  | [] => d
  | [a] => a
  | _ :: b :: r => lastD d (b :: r)

/-- Python's `name.split('.')[-1]`: the text after the last dot (the whole
string when there is no dot). -/
def pyExtSplit (name : String) : String :=
  String.mk (lastD [] (splitOnChar '.' name.data))

/-- Python's `section.Name.split('\x00')[0]`: the section name up to the
first NUL byte. -/
def pySectionName (raw : String) : String :=
  String.mk ((splitOnChar (Char.ofNat 0) raw.data).headD [])

/-- Left-pad a string with `'0'` to width `w`. -/
def padLeftZeros (w : Nat) (s : String) : String :=
  String.mk (List.replicate (w - s.length) '0') ++ s

/-- Python 2's `'%08x' % i`: lowercase hexadecimal, zero-padded to total
width 8, with a leading `-` for negative values. -/
def pyHex8 (i : Int) : String :=
  if i < 0 then "-" ++ padLeftZeros 7 (String.mk (Nat.toDigits 16 i.natAbs))
  else padLeftZeros 8 (String.mk (Nat.toDigits 16 i.natAbs))

/-- Python's `x is None` applied to a value that is an `int`: always false
(an `int` is never `None`). -/
def pyIsNone (_ : Int) : Bool := false

/-- Python list indexing `lst[i]`: `IndexError` when out of range. -/
def pyIndex (l : List Cell) (i : Nat) : Except PyExc Cell :=
  match l.get? i with
  | some c => Except.ok c
  | none => Except.error PyExc.indexError

/-- Python 2's `'%ld' % x`: formats an integer, `TypeError` otherwise. -/
def pyFmtLd : Cell → Except PyExc String
  | Cell.int i => Except.ok (toString i)
  | _ => Except.error PyExc.typeError

-- Sanity checks on the Python-semantics helpers.
example : pyIntHex "40000000" = some 1073741824 := by decide
example : pyIntHex " 0x1F " = some 31 := by decide
example : pyIntHex "-5" = some (-5) := by decide
example : pyIntHex "0x" = none := by decide
example : pyIntHex "" = none := by decide
example : pyIntHex "zz" = none := by decide
example : pyExtSplit "kernel32" = "kernel32" := by decide
example : pyExtSplit "a.exe" = "exe" := by decide
example : pyHex8 1073741824 = "40000000" := by decide
example : pyHex8 31 = "0000001f" := by decide
example : pyHex8 (-5) = "-0000005" := by decide
example (s : String) :
    ("Invalid start address (0x" ++ s ++ ")").data.head? = some 'I' := rfl
example (a b : String) : (a ++ b).data = a.data ++ b.data := rfl

/-- CPython `getopt.GetoptError` reasons relevant to short-option parsing. -/
inductive GetoptError
  | optNotRecognized (opt : Char)
  | optRequiresArgument (opt : Char)
  | longOptNotRecognized (word : String)
deriving DecidableEq

/-- CPython `getopt.short_has_arg(opt, shortopts)`: scans the option string
for `opt` (skipping `:` characters); returns whether a `:` follows the
matching character; raises `GetoptError` when `opt` does not occur. -/
def short_has_arg (opt : Char) : List Char → Except GetoptError Bool
  | [] => Except.error (GetoptError.optNotRecognized opt)
  | c :: rest =>
    if opt = c ∧ c ≠ ':' then Except.ok (decide (rest.head? = some ':'))
    else short_has_arg opt rest

/-- CPython `getopt.do_shorts`: processes one leading option word (already
stripped of its `-`), possibly consuming the next argument word as an
option argument. -/
def do_shorts (opts : List (String × String)) (optstring : List Char)
    (shortopts : List Char) (args : List String) :
    Except GetoptError (List (String × String) × List String) :=
  match optstring with
  | [] => Except.ok (opts, args)
  | opt :: rest =>
    match short_has_arg opt shortopts with
    | Except.error e => Except.error e
    | Except.ok true =>
      match rest with
      | [] =>
        match args with
        | [] => Except.error (GetoptError.optRequiresArgument opt)
        | a :: args2 =>
          Except.ok (opts ++ [("-" ++ String.singleton opt, a)], args2)
      | _ =>
        Except.ok (opts ++ [("-" ++ String.singleton opt, String.mk rest)], args)
    | Except.ok false =>
      do_shorts (opts ++ [("-" ++ String.singleton opt, "")]) rest shortopts args

/-- Models `a.startswith('-')` on the head argument word. -/
def startsDash (a : String) : Bool :=
  match a.data with
  | '-' :: _ => true
  | _ => false

/-- Models `a.startswith('--')` on the head argument word. -/
def startsDashDash (a : String) : Bool :=
  match a.data with
  | '-' :: '-' :: _ => true
  | _ => false

/-- The `while` loop of CPython `getopt.getopt(args, shortopts)` with no
long options: processes leading option words, stops at the first
non-option word or a lone `-`, consumes a bare `--`, and rejects `--xyz`
words (the empty long-option table recognizes nothing).  The `fuel`
argument makes the recursion structural; each iteration removes at least
one argument word, so with `fuel = args.length` (as `pygetopt` passes) the
`0` case is only ever reached with `args = []`, where it agrees with the
loop's normal exit. -/
def getopt_iter (shortopts : List Char) :
    Nat → List (String × String) → List String →
    Except GetoptError (List (String × String) × List String)
  | 0, opts, args => Except.ok (opts, args)
  | Nat.succ fuel, opts, args =>
    match args with
    | [] => Except.ok (opts, [])
    | a :: rest =>
      if startsDash a ∧ a ≠ "-" then
        if a = "--" then Except.ok (opts, rest)
        else if startsDashDash a then
          Except.error (GetoptError.longOptNotRecognized a)
        else
          match do_shorts opts (a.data.drop 1) shortopts rest with
          | Except.error e => Except.error e
          | Except.ok (opts2, args2) => getopt_iter shortopts fuel opts2 args2
      else Except.ok (opts, a :: rest)

/-- CPython `getopt.getopt(args, shortopts)` with no long options. -/
def pygetopt (args : List String) (shortopts : String) :
    Except GetoptError (List (String × String) × List String) :=
  getopt_iter shortopts.data args.length [] args

-- Sanity checks against CPython getopt behaviour.
example : pygetopt ["-m", "kernel32"] "hm:" =
    Except.ok ([("-m", "kernel32")], []) := by decide
example : pygetopt ["40000000", "80000000"] "hm:" =
    Except.ok ([], ["40000000", "80000000"]) := by decide
example : pygetopt ["-m", "-r"] "hm:" =
    Except.ok ([("-m", "-r")], []) := by decide
example : pygetopt ["-r", "rules"] "hm:" =
    Except.error (GetoptError.optNotRecognized 'r') := by decide
example : pygetopt ["-hm", "x"] "hm:" =
    Except.ok ([("-h", ""), ("-m", "x")], []) := by decide
example : pygetopt ["-m"] "hm:" =
    Except.error (GetoptError.optRequiresArgument 'm') := by decide
example : pygetopt ["-mx", "y"] "hm:" =
    Except.ok ([("-m", "x")], ["y"]) := by decide
example : pygetopt ["--", "-m", "x"] "hm:" =
    Except.ok ([], ["-m", "x"]) := by decide
example : pygetopt ["-r", "rules", "-m", "k"] "hm:r:" =
    Except.ok ([("-r", "rules"), ("-m", "k")], []) := by decide

/-- Models `memhash.usage(imm)`: the sequence of `imm.log` calls (with `NAME`
interpolated as `memhash`). -/
def usage_memhash : M Unit :=
  M.bind (imm_log " ") fun _ =>
  M.bind (imm_log "!memhash [-m module] start-address end-address") fun _ =>
  M.bind (imm_log "    -h            : Display this message") fun _ =>
  M.bind (imm_log "    -m module     : Module name") fun _ =>
  M.bind (imm_log "    start-address : Start address") fun _ =>
  M.bind (imm_log "    end-address   : End address") fun _ =>
  M.bind (imm_log "ex: !memhash 40000000 80000000") fun _ =>
  M.bind (imm_log "ex: !memhash -m kernel32") fun _ =>
  imm_log " "

/-- The per-section read length of `memhash.hash_module`:
`virtual_size + (alignment - virtual_size % alignment)`, which in Python
raises `ZeroDivisionError` when `alignment` is `0`. -/
def sectionSize (alignment virtual_size : Nat) : Except PyExc Nat :=
  if alignment = 0 then Except.error PyExc.zeroDivisionError
  else Except.ok (virtual_size + (alignment - virtual_size % alignment))

/-- The `for section in pe.sections` loop body of `memhash.hash_module`. -/
def hash_module_sections (env : Env) (module : ImmModule) (pe : PEFile) :
    List PESection → M Unit
  | [] => M.pure ()
  | sec :: rest =>
    let section_name := pySectionName sec.Name
    let start := module.baseAddress + sec.VirtualAddress
    M.bind (liftE (sectionSize pe.sectionAlignment sec.Misc_VirtualSize)) fun size =>
    M.bind (imm_readMemory env (start : Int) (size : Int)) fun data =>
    M.bind (([Event.md5 data], Except.ok (env.md5hex data)) : M String) fun md5sum =>
    M.bind (imm_log (module.name ++ " " ++ section_name ++ " MD5: " ++ md5sum)) fun _ =>
    hash_module_sections env module pe rest

/-- Models `memhash.hash_module(imm, module_name)`: suffix the module name with
`.dll` when its extension is unrecognized, look the module up, parse its
file with `pefile.PE` (which may raise), and hash each section. -/
def hash_module (env : Env) (module_name : String) : M String :=
  let module_name :=
    if pyExtSplit module_name ∈ (["exe", "sys", "dll"] : List String)
    then module_name else module_name ++ ".dll"
  M.bind (imm_getModule env module_name) fun module =>
  match module with
  | none => M.pure (module_name ++ " is not a loaded module")
  | some module =>
    M.bind (liftE (env.peF module.path)) fun pe =>
    M.bind (hash_module_sections env module pe pe.sections) fun _ =>
    M.pure ("Calculated hash for " ++ module.name)

/-- Models `memhash.hash_address_range(imm, start_addr, end_addr)`: parse both
addresses as hex (early string return on `ValueError`), test the dead
`is None` branch, require `start < end`, then read and hash the range. -/
def hash_address_range (env : Env) (start_addr end_addr : String) : M String :=
  match pyIntHex start_addr with
  | none =>
    M.bind usage_memhash fun _ =>
    M.pure ("Invalid start address (0x" ++ start_addr ++ ")")
  | some start =>
    match pyIntHex end_addr with
    | none =>
      M.bind usage_memhash fun _ =>
      M.pure ("Invalid end address (0x" ++ end_addr ++ ")")
    | some «end» =>
      if pyIsNone start || pyIsNone «end» then
        M.bind usage_memhash fun _ =>
        M.pure "Start and end addresses must be specified"
      else if start ≥ «end» then
        M.bind usage_memhash fun _ =>
        M.pure "End address must be greater than start address"
      else
        M.bind (imm_readMemory env start («end» - start)) fun data =>
        M.bind (([Event.md5 data], Except.ok (env.md5hex data)) : M String) fun md5sum =>
        M.bind (imm_log ("0x" ++ pyHex8 start ++ " - 0x" ++ pyHex8 «end» ++
          " MD5: " ++ md5sum)) fun _ =>
        M.pure ("Calculated hash for 0x" ++ pyHex8 start ++ " - 0x" ++ pyHex8 «end»)

/-- Result of the `for opt, arg in opts` loop shared by both scripts'
`main`: either an early `-h` return or the final option assignments. -/
inductive OptScanHM
  | help
  | done (module : Option String)
deriving DecidableEq

/-- The `for opt, arg in opts` loop of `memhash.main`: `-h` returns
immediately; each `-m` overwrites `module`. -/
def memhash_opt_loop : List (String × String) → Option String → OptScanHM
  | [], module => OptScanHM.done module
  | (opt, arg) :: rest, module =>
    if opt = "-h" then OptScanHM.help
    else if opt = "-m" then memhash_opt_loop rest (some arg)
    else memhash_opt_loop rest module

/-- Models `memhash.main(args)`: getopt, option scan, then dispatch on `module`
truthiness / positional argument count. -/
def memhash_main (env : Env) (args : List String) : M String :=
  match pygetopt args "hm:" with
  | Except.error _ =>
    M.bind usage_memhash fun _ =>
    M.pure "Incorrect arguments (check log window)"
  | Except.ok (opts, args) =>
    match memhash_opt_loop opts none with
    | OptScanHM.help =>
      M.bind usage_memhash fun _ =>
      M.pure ""
    | OptScanHM.done module =>
      let fallback : M String :=
        match args with
        | [a, b] => hash_address_range env a b
        | _ =>
          M.bind usage_memhash fun _ =>
          M.pure "Incorrect arguments (check log window)"
      match module with
      | some m => if m = "" then fallback else hash_module env m
      | none => fallback

-- Sanity checks of memhash paths on a concrete oracle environment.
def rules_empty : YaraRules := ⟨fun _ => []⟩

def env_nomod : Env :=
  { getModuleF := fun _ => none
    readMemoryF := fun _ _ => [1, 2, 3]
    peF := fun _ => Except.error (PyExc.peFormatError "DOS Header magic not found.")
    md5hex := fun _ => "5289df737df57326fcdd22597afb1fac"
    yaraCompile := fun _ => Except.ok rules_empty }

example : (memhash_main env_nomod ["-m", "kernel32"]).2 =
    Except.ok "kernel32.dll is not a loaded module" := by decide
example : (memhash_main env_nomod ["40000000", "zz"]).2 =
    Except.ok "Invalid end address (0xzz)" := by decide
example : (memhash_main env_nomod ["50", "40"]).2 =
    Except.ok "End address must be greater than start address" := by decide
example : (memhash_main env_nomod ["40", "50"]).2 =
    Except.ok "Calculated hash for 0x00000040 - 0x00000050" := by decide
example : (memhash_main env_nomod ["40", "50"]).1 =
    [Event.readMemory 64 16, Event.md5 [1, 2, 3],
     Event.log "0x00000040 - 0x00000050 MD5: 5289df737df57326fcdd22597afb1fac"] := by decide
example : (memhash_main env_nomod ["-h"]).2 = Except.ok "" := by decide
example : (memhash_main env_nomod []).2 =
    Except.ok "Incorrect arguments (check log window)" := by decide

/-- Models `memyara.usage(imm)`: the sequence of `imm.log` calls (with `NAME`
interpolated as `memyara`; the first message is a single continued line in
the source). -/
def usage_memyara : M Unit :=
  M.bind (imm_log " ") fun _ =>
  M.bind (imm_log "!memyara [-m module] -r /path/to/rules start-address end-address") fun _ =>
  M.bind (imm_log "    -h                : Display this message") fun _ =>
  M.bind (imm_log "    -m module         : Module name") fun _ =>
  M.bind (imm_log "    -r /path/to/rules : Path to Yara rules file") fun _ =>
  M.bind (imm_log "    start-address     : Start address") fun _ =>
  M.bind (imm_log "    end-address       : End address") fun _ =>
  M.bind (imm_log "ex: !memyara -r /path/to/rules 40000000 80000000") fun _ =>
  M.bind (imm_log "ex: !memyara -m kernel32 -r /path/to/rules") fun _ =>
  imm_log " "

/-- The exception classes caught by `memyara.main`'s
`except (yara.YaraSyntaxError, yara.YaraError)` clause. -/
def isCaughtYara : PyExc → Bool
  | PyExc.yaraSyntaxError => true
  | PyExc.yaraError => true
  | _ => false

/-- Models `rules.match(data=data)`: records the matching and consults the rules. -/
def rules_match (rules : YaraRules) (data : List Nat) : M (List YaraMatch) :=
  ([Event.yaraMatch data], Except.ok (rules.matchData data))

/-- The `for match in matches` loop of `memyara._display_results`: each
iteration indexes `match.strings[0]`, formats it with `'%ld'`, indexes
`match.strings[1]` and `match.strings[2]`, and adds a row at index `0`. -/
def display_loop : List YaraMatch → M Unit
  | [] => M.pure ()
  | m :: rest =>
    M.bind (liftE (pyIndex m.strings 0)) fun s0 =>
    M.bind (liftE (pyFmtLd s0)) fun f0 =>
    M.bind (liftE (pyIndex m.strings 1)) fun s1 =>
    M.bind (liftE (pyIndex m.strings 2)) fun s2 =>
    M.bind (([Event.tableAdd 0 [Cell.str m.rule, Cell.str f0, s1, s2]],
             Except.ok ()) : M Unit) fun _ =>
    display_loop rest

/-- Models `memyara._display_results(imm, matches)`: create the results table and
add one row per match. -/
def display_results (matchList : List YaraMatch) : M Unit :=
  M.bind (([Event.createTable "Yara matches" ["Rule", "Offset", "Identifier", "Offset"]],
           Except.ok ()) : M Unit) fun _ =>
  display_loop matchList

/-- Models `memyara.run_yara_on_module(imm, module_name, rules)`. -/
def run_yara_on_module (env : Env) (module_name : String) (rules : YaraRules) :
    M String :=
  let module_name :=
    if pyExtSplit module_name ∈ (["exe", "sys", "dll"] : List String)
    then module_name else module_name ++ ".dll"
  M.bind (imm_getModule env module_name) fun module =>
  match module with
  | none => M.pure (module_name ++ " is not a loaded module")
  | some module =>
    M.bind (imm_readMemory env (module.baseAddress : Int) (module.size : Int)) fun data =>
    M.bind (rules_match rules data) fun matchList =>
    M.bind (display_results matchList) fun _ =>
    M.pure (toString matchList.length ++ " matches")

/-- Models `memyara.run_yara_on_address_range(imm, start_addr, end_addr, rules)`. -/
def run_yara_on_address_range (env : Env) (start_addr end_addr : String)
    (rules : YaraRules) : M String :=
  match pyIntHex start_addr with
  | none =>
    M.bind usage_memyara fun _ =>
    M.pure ("Invalid start address (0x" ++ start_addr ++ ")")
  | some start =>
    match pyIntHex end_addr with
    | none =>
      M.bind usage_memyara fun _ =>
      M.pure ("Invalid end address (0x" ++ end_addr ++ ")")
    | some «end» =>
      if pyIsNone start || pyIsNone «end» then
        M.bind usage_memyara fun _ =>
        M.pure "Start and end addresses must be specified"
      else if start ≥ «end» then
        M.bind usage_memyara fun _ =>
        M.pure "End address must be greater than start address"
      else
        M.bind (imm_readMemory env start («end» - start)) fun data =>
        M.bind (rules_match rules data) fun matchList =>
        M.bind (display_results matchList) fun _ =>
        M.pure (toString matchList.length ++ " matches")

/-- Result of the `for opt, arg in opts` loop of `memyara.main`. -/
inductive OptScanMY
  | help
  | done (module rules_file : Option String)
deriving DecidableEq

/-- The `for opt, arg in opts` loop of `memyara.main`: `-h` returns
immediately; `-m` and `-r` overwrite `module` and `rules_file`. -/
def memyara_opt_loop : List (String × String) → Option String → Option String →
    OptScanMY
  | [], module, rules_file => OptScanMY.done module rules_file
  | (opt, arg) :: rest, module, rules_file =>
    if opt = "-h" then OptScanMY.help
    else if opt = "-m" then memyara_opt_loop rest (some arg) rules_file
    else if opt = "-r" then memyara_opt_loop rest module (some arg)
    else memyara_opt_loop rest module rules_file

/-- Python truthiness of the `module` / `rules_file` variables (`None` and
the empty string are falsy). -/
def pyTruthyOpt : Option String → Bool
  | none => false
  | some s => decide (s ≠ "")

/-- Models `memyara.main(args)`: getopt, option scan, require a truthy rules-file
path, compile the rules (catching only the two Yara error classes), then
dispatch on `module` truthiness / positional argument count. -/
def memyara_main (env : Env) (args : List String) : M String :=
  match pygetopt args "hm:r:" with
  | Except.error _ =>
    M.bind usage_memyara fun _ =>
    M.pure "Incorrect arguments (check log window)"
  | Except.ok (opts, args) =>
    match memyara_opt_loop opts none none with
    | OptScanMY.help =>
      M.bind usage_memyara fun _ =>
      M.pure ""
    | OptScanMY.done module rules_file =>
      if pyTruthyOpt rules_file = false then
        M.bind usage_memyara fun _ =>
        M.pure "Incorrect arguments (Path to Yara rule file required)"
      else
        let rf := rules_file.getD ""
        M.bind (([Event.compile rf], Except.ok ()) : M Unit) fun _ =>
        match env.yaraCompile rf with
        | Except.error e =>
          if isCaughtYara e then M.pure (rf ++ " is an invalid Yara rules file")
          else M.raise e
        | Except.ok rules =>
          let fallback : M String :=
            match args with
            | [a, b] => run_yara_on_address_range env a b rules
            | _ =>
              M.bind usage_memyara fun _ =>
              M.pure "Incorrect arguments (check log window)"
          match module with
          | some m => if m = "" then fallback else run_yara_on_module env m rules
          | none => fallback

-- Sanity checks of memyara paths on concrete oracle environments.
def match_ok : YaraMatch :=
  ⟨"rule1", [Cell.int 16, Cell.str "$a", Cell.bytes [144, 144]]⟩

def rules_one : YaraRules := ⟨fun _ => [match_ok]⟩

def env_yara : Env :=
  { getModuleF := fun _ => none
    readMemoryF := fun _ _ => [1, 2, 3]
    peF := fun _ => Except.error (PyExc.peFormatError "DOS Header magic not found.")
    md5hex := fun _ => "5289df737df57326fcdd22597afb1fac"
    yaraCompile := fun p => if p = "good.yar" then Except.ok rules_one
                            else Except.error PyExc.yaraSyntaxError }

example : (memyara_main env_yara ["40000000", "80000000"]).2 =
    Except.ok "Incorrect arguments (Path to Yara rule file required)" := by decide
example : (memyara_main env_yara ["-r", "bad.yar", "40", "50"]).2 =
    Except.ok "bad.yar is an invalid Yara rules file" := by decide
example : (memyara_main env_yara ["-r", "bad.yar", "40", "50"]).1 =
    [Event.compile "bad.yar"] := by decide
example : (memyara_main env_yara ["-r", "good.yar", "40", "50"]).2 =
    Except.ok "1 matches" := by decide
example : (memyara_main env_yara ["-r", "good.yar", "40", "50"]).1 =
    [Event.compile "good.yar", Event.readMemory 64 16, Event.yaraMatch [1, 2, 3],
     Event.createTable "Yara matches" ["Rule", "Offset", "Identifier", "Offset"],
     Event.tableAdd 0 [Cell.str "rule1", Cell.str "16", Cell.str "$a",
       Cell.bytes [144, 144]]] := by decide
example : (memyara_main env_yara ["-r", "good.yar", "-m", "kernel32"]).2 =
    Except.ok "kernel32.dll is not a loaded module" := by decide
example : (memyara_main env_yara ["-q"]).2 =
    Except.ok "Incorrect arguments (check log window)" := by decide

/-- The event trace of a bind: the first computation's events, then (when it
returned normally) the continuation's. -/
theorem M.bind_fst {α β : Type} (x : M α) (f : α → M β) :
    (M.bind x f).1 = x.1 ++ (match x.2 with
      | Except.error _ => []
      | Except.ok a => (f a).1) := by
  rcases x with ⟨evs, r⟩
  cases r with
  | error e => simp [M.bind]
  | ok a => rfl

/-- The outcome of a bind: an exception short-circuits, a normal return
continues. -/
theorem M.bind_snd {α β : Type} (x : M α) (f : α → M β) :
    (M.bind x f).2 = (match x.2 with
      | Except.error e => Except.error e
      | Except.ok a => (f a).2) := by
  rcases x with ⟨evs, r⟩
  cases r <;> rfl

/-- Recognizes `imm.log` events. -/
def isLogEvent : Event → Bool
  | Event.log _ => true
  | _ => false

/-- Recognizes `imm.readMemory` events. -/
def isReadMemoryEvent : Event → Bool
  | Event.readMemory _ _ => true
  | _ => false

/-- A Yara match record that `_display_results` can process in full: its
`strings` sequence has at least three entries and the first one is an
integer (so `'%ld' %` accepts it). -/
def wfMatch : YaraMatch → Bool
  | ⟨_, Cell.int _ :: _ :: _ :: _⟩ => true
  | _ => false

/-- The table row `_display_results` builds for a (well-formed) match. -/
def mkRow : YaraMatch → List Cell
  | ⟨r, Cell.int i :: c1 :: c2 :: _⟩ => [Cell.str r, Cell.str (toString i), c1, c2]
  | ⟨r, _⟩ => [Cell.str r]

/-- Two strings whose head characters differ are distinct. -/
theorem str_ne_of_head_ne {a b : String} (h : a.data.head? ≠ b.data.head?) :
    a ≠ b := fun he => h (by rw [he])

/-- The invalid-start-address message is never the missing-addresses one. -/
theorem invalid_start_msg_ne (s : String) :
    ("Invalid start address (0x" ++ s ++ ")") ≠
      "Start and end addresses must be specified" :=
  str_ne_of_head_ne (by intro h; exact Option.noConfusion h (fun h2 => Char.noConfusion h2 (by decide)))

/-- The invalid-end-address message is never the missing-addresses one. -/
theorem invalid_end_msg_ne (s : String) :
    ("Invalid end address (0x" ++ s ++ ")") ≠
      "Start and end addresses must be specified" :=
  str_ne_of_head_ne (by intro h; exact Option.noConfusion h (fun h2 => Char.noConfusion h2 (by decide)))

/-- The range-order message is never the missing-addresses one. -/
theorem range_order_msg_ne :
    ("End address must be greater than start address" : String) ≠
      "Start and end addresses must be specified" := by decide

/-- The memhash success message is never the missing-addresses one. -/
theorem hash_success_msg_ne (s1 s2 : String) :
    ("Calculated hash for 0x" ++ s1 ++ " - 0x" ++ s2) ≠
      "Start and end addresses must be specified" :=
  str_ne_of_head_ne (by intro h; exact Option.noConfusion h (fun h2 => Char.noConfusion h2 (by decide)))

/-- The memyara success message (which ends in `" matches"`) is never the
missing-addresses one (which ends in `"specified"`). -/
theorem yara_success_msg_ne (n : Nat) :
    (toString n ++ " matches") ≠ "Start and end addresses must be specified" := by
  intro h
  have h2 : ("Start and end addresses must be specified" : String).data.reverse.head? =
      some 's' := by
    rw [← h]
    show ((toString n).data ++ (" matches" : String).data).reverse.head? = some 's'
    rw [List.reverse_append]
    rfl
  exact Option.noConfusion h2 (fun h3 => Char.noConfusion h3 (by decide))

/-- Lifting a pure fallible computation adds no events. -/
theorem liftE_fst {α : Type} (x : Except PyExc α) : (liftE x).1 = [] := by
  cases x <;> rfl

/-- Lifting a pure fallible computation keeps its outcome. -/
theorem liftE_snd {α : Type} (x : Except PyExc α) : (liftE x).2 = x := by
  cases x <;> rfl

/-- Every event added by `_display_results`'s loop is a table row at the
fixed row index `0`. -/
theorem display_loop_events : ∀ (ml : List YaraMatch) (ev : Event),
    ev ∈ (display_loop ml).1 → ∃ vals, ev = Event.tableAdd 0 vals := by
  intro ml
  induction ml with
  | nil =>
    intro ev h
    exact absurd h (by simp [display_loop, M.pure])
  | cons m0 rest ih =>
    intro ev h
    simp only [display_loop, M.bind_fst, liftE_fst, liftE_snd, List.nil_append] at h
    split at h
    · simp at h
    · split at h
      · simp at h
      · split at h
        · simp at h
        · split at h
          · simp at h
          · simp only [List.mem_append, List.mem_singleton] at h
            rcases h with h | h
            · exact ⟨_, h⟩
            · exact ih ev h

/-- If `_display_results`'s loop ran to completion, every processed match
had at least three `strings` entries (the unguarded `strings[2]` access
succeeded for each of them). -/
theorem display_loop_ok_lengths : ∀ (ml : List YaraMatch),
    (display_loop ml).2 = Except.ok () → ∀ m ∈ ml, 3 ≤ m.strings.length := by
  intro ml
  induction ml with
  | nil =>
    intro _ m hm
    exact absurd hm (List.not_mem_nil m)
  | cons m0 rest ih =>
    intro h m hm
    simp only [display_loop, M.bind_snd, liftE_snd] at h
    split at h
    · exact absurd h (by simp)
    · split at h
      · exact absurd h (by simp)
      · split at h
        · exact absurd h (by simp)
        · rename_i s1 heq2
          split at h
          · exact absurd h (by simp)
          · rename_i s2 heq3
            rcases List.mem_cons.mp hm with hme | hmr
            · subst hme
              simp only [pyIndex] at heq3
              cases hg : m.strings.get? 2 with
              | none => rw [hg] at heq3; exact absurd heq3 (by simp)
              | some c =>
                have hlt : 2 < m.strings.length := List.get?_eq_some.mp hg |>.1
                omega
            · exact ih h m hmr

/-- On a list of well-formed matches, `_display_results`'s loop succeeds and
adds exactly one row (at index `0`) per match, in order. -/
theorem display_loop_of_wf : ∀ (ml : List YaraMatch),
    (∀ m ∈ ml, wfMatch m = true) →
    display_loop ml =
      (ml.map (fun m => Event.tableAdd 0 (mkRow m)), Except.ok ()) := by
  intro ml
  induction ml with
  | nil => intro _; rfl
  | cons m0 rest ih =>
    intro hwf
    have hm0 : wfMatch m0 = true := hwf m0 (List.mem_cons_self m0 rest)
    have hrest := ih (fun m hm => hwf m (List.mem_cons_of_mem m0 hm))
    rcases m0 with ⟨r, strs⟩
    cases strs with
    | nil => exact absurd hm0 (by simp [wfMatch])
    | cons c0 t0 =>
      cases c0 with
      | str s => exact absurd hm0 (by simp [wfMatch])
      | bytes b => exact absurd hm0 (by simp [wfMatch])
      | int i =>
        cases t0 with
        | nil => exact absurd hm0 (by simp [wfMatch])
        | cons c1 t1 =>
          cases t1 with
          | nil => exact absurd hm0 (by simp [wfMatch])
          | cons c2 t2 =>
            simp only [display_loop, pyIndex, pyFmtLd, liftE, M.bind, List.get?,
              List.map_cons, mkRow, hrest]
            rfl

-- Concrete fixtures used by witnesses and counterexamples.
def sec_w0 : PESection := ⟨".text", 4096, 100⟩

def pe_w : PEFile := ⟨[sec_w0], 4096⟩

def mod_w : ImmModule := ⟨4194304, 65536, "C:\\fake.dll", "fake"⟩

/-- C8: in `hash_module` the per-section read length is
`virtual_size + (alignment - virtual_size % alignment)`.  For positive
alignment this is strictly greater than `virtual_size`; when
`virtual_size` is already a multiple of the alignment it equals
`virtual_size + alignment` (one full alignment unit more) rather than
`virtual_size`; for `alignment = 0` the expression raises
`ZeroDivisionError`; and the section loop's first host interaction is a
memory read of exactly this length. -/
theorem C8_section_size :
    (∀ alignment virtual_size : Nat, 0 < alignment →
      sectionSize alignment virtual_size =
        Except.ok (virtual_size + (alignment - virtual_size % alignment)) ∧
      virtual_size < virtual_size + (alignment - virtual_size % alignment)) ∧
    (∀ alignment virtual_size : Nat, 0 < alignment →
      virtual_size % alignment = 0 →
      sectionSize alignment virtual_size = Except.ok (virtual_size + alignment)) ∧
    (∀ virtual_size : Nat,
      sectionSize 0 virtual_size = Except.error PyExc.zeroDivisionError) ∧
    (∀ (env : Env) (module : ImmModule) (pe : PEFile) (sec : PESection)
        (rest : List PESection) (sz : Nat),
      sectionSize pe.sectionAlignment sec.Misc_VirtualSize = Except.ok sz →
      (hash_module_sections env module pe (sec :: rest)).1.head? =
        some (Event.readMemory
          ((module.baseAddress + sec.VirtualAddress : Nat) : Int) (sz : Int))) := by
  refine ⟨?_, ?_, ?_, ?_⟩
  · intro a v ha
    have hmod : v % a < a := Nat.mod_lt v ha
    refine ⟨by simp [sectionSize, ha.ne'], by omega⟩
  · intro a v ha h0
    simp [sectionSize, ha.ne', h0]
  · intro v
    rfl
  · intro env module pe sec rest sz hsz
    simp only [hash_module_sections, hsz, liftE]
    rfl

/-- C8 witness: the three arithmetic facts and the loop's read length, at
concrete inputs. -/
theorem C8_section_size_witness :
    (sectionSize 4096 4096 = Except.ok (4096 + (4096 - 4096 % 4096)) ∧
      4096 < 4096 + (4096 - 4096 % 4096)) ∧
    sectionSize 100 300 = Except.ok (300 + 100) ∧
    sectionSize 0 77 = Except.error PyExc.zeroDivisionError ∧
    (hash_module_sections env_nomod mod_w pe_w (sec_w0 :: [])).1.head? =
      some (Event.readMemory
        ((mod_w.baseAddress + sec_w0.VirtualAddress : Nat) : Int) ((4096 : Nat) : Int)) :=
  ⟨C8_section_size.1 4096 4096 (by decide),
   C8_section_size.2.1 100 300 (by decide) (by decide),
   C8_section_size.2.2.1 77,
   C8_section_size.2.2.2 env_nomod mod_w pe_w sec_w0 [] 4096 (by decide)⟩

/-- C9: the branch returning `Start and end addresses must be specified`
is unreachable in both address-range functions: it tests values produced
by `int(·, 16)` for `None`, which an `int` never is, so no input yields
that return string. -/
theorem C9_none_branch_unreachable :
    ∀ (env : Env) (s e : String) (rules : YaraRules),
      (hash_address_range env s e).2 ≠
        Except.ok "Start and end addresses must be specified" ∧
      (run_yara_on_address_range env s e rules).2 ≠
        Except.ok "Start and end addresses must be specified" := by
  intro env s e rules
  constructor
  · intro h
    simp only [hash_address_range] at h
    split at h
    · exact invalid_start_msg_ne s (Except.ok.inj h)
    · split at h
      · exact invalid_end_msg_ne e (Except.ok.inj h)
      · rename_i x1 a ha x2 b hb
        simp only [pyIsNone, Bool.or_self, Bool.false_eq_true, if_false] at h
        by_cases hab : a ≥ b
        · rw [if_pos hab] at h
          exact range_order_msg_ne (Except.ok.inj h)
        · rw [if_neg hab] at h
          exact hash_success_msg_ne (pyHex8 a) (pyHex8 b) (Except.ok.inj h)
  · intro h
    simp only [run_yara_on_address_range] at h
    split at h
    · exact invalid_start_msg_ne s (Except.ok.inj h)
    · split at h
      · exact invalid_end_msg_ne e (Except.ok.inj h)
      · rename_i x1 a ha x2 b hb
        simp only [pyIsNone, Bool.or_self, Bool.false_eq_true, if_false] at h
        by_cases hab : a ≥ b
        · rw [if_pos hab] at h
          exact range_order_msg_ne (Except.ok.inj h)
        · rw [if_neg hab] at h
          simp only [M.bind_snd, imm_readMemory, rules_match, display_results] at h
          split at h
          · exact absurd h (by simp)
          · exact yara_success_msg_ne _ (Except.ok.inj h)

/-- C2: both `hash_module` and `run_yara_on_module` append `.dll` to a
module name whose extension (the text after the last `.`) is not one of
`exe`/`sys`/`dll` before the `getModule` lookup, and pass a name with a
recognized extension to `getModule` unchanged. -/
theorem C2_module_name_suffix :
    ∀ (env : Env) (name : String) (rules : YaraRules),
      (pyExtSplit name ∉ (["exe", "sys", "dll"] : List String) →
        (hash_module env name).1.head? =
          some (Event.getModule (name ++ ".dll")) ∧
        (run_yara_on_module env name rules).1.head? =
          some (Event.getModule (name ++ ".dll"))) ∧
      (pyExtSplit name ∈ (["exe", "sys", "dll"] : List String) →
        (hash_module env name).1.head? = some (Event.getModule name) ∧
        (run_yara_on_module env name rules).1.head? =
          some (Event.getModule name)) := by
  intro env name rules
  constructor
  · intro hext
    constructor
    · simp only [hash_module, if_neg hext]
      rfl
    · simp only [run_yara_on_module, if_neg hext]
      rfl
  · intro hext
    constructor
    · simp only [hash_module, if_pos hext]
      rfl
    · simp only [run_yara_on_module, if_pos hext]
      rfl

/-- C2 witness: `kernel32` gets the `.dll` suffix; `ntoskrnl.exe` passes
through unchanged. -/
theorem C2_module_name_suffix_witness :
    pyExtSplit "kernel32" ∉ (["exe", "sys", "dll"] : List String) ∧
    (hash_module env_nomod "kernel32").1.head? =
      some (Event.getModule ("kernel32" ++ ".dll")) ∧
    pyExtSplit "ntoskrnl.exe" ∈ (["exe", "sys", "dll"] : List String) ∧
    (run_yara_on_module env_nomod "ntoskrnl.exe" rules_empty).1.head? =
      some (Event.getModule "ntoskrnl.exe") :=
  ⟨by decide,
   ((C2_module_name_suffix env_nomod "kernel32" rules_empty).1 (by decide)).1,
   by decide,
   ((C2_module_name_suffix env_nomod "ntoskrnl.exe" rules_empty).2 (by decide)).2⟩

/-- C3: for hexadecimal strings parsing to `start ≥ end`, both
address-range functions return `End address must be greater than start
address`, and the entire event trace is exactly the usage log output —
every event of which is an `imm.log`, so no memory read, no hashing and
no Yara matching occurs. -/
theorem C3_range_order_early_return :
    ∀ (env : Env) (s e : String) (a b : Int) (rules : YaraRules),
      pyIntHex s = some a → pyIntHex e = some b → a ≥ b →
      hash_address_range env s e =
        (usage_memhash.1,
         Except.ok "End address must be greater than start address") ∧
      run_yara_on_address_range env s e rules =
        (usage_memyara.1,
         Except.ok "End address must be greater than start address") ∧
      (∀ ev ∈ usage_memhash.1, isLogEvent ev = true) ∧
      (∀ ev ∈ usage_memyara.1, isLogEvent ev = true) := by
  intro env s e a b rules hs he hab
  refine ⟨?_, ?_, by decide, by decide⟩
  · simp only [hash_address_range, hs, he, pyIsNone, Bool.or_self,
      Bool.false_eq_true, if_false, if_pos hab]
    rfl
  · simp only [run_yara_on_address_range, hs, he, pyIsNone, Bool.or_self,
      Bool.false_eq_true, if_false, if_pos hab]
    rfl

/-- C3 witness: `0x50 ≥ 0x40` triggers the early return in memhash. -/
theorem C3_range_order_early_return_witness :
    pyIntHex "50" = some 80 ∧ pyIntHex "40" = some 64 ∧ ((80 : Int) ≥ 64) ∧
    hash_address_range env_nomod "50" "40" =
      (usage_memhash.1,
       Except.ok "End address must be greater than start address") :=
  ⟨by decide, by decide, by decide,
   (C3_range_order_early_return env_nomod "50" "40" 80 64 rules_empty
     (by decide) (by decide) (by decide)).1⟩

/-- C4: on the success path of both address-range operations the event
trace contains exactly one memory read, whose requested length is the
parsed end address minus the parsed start address. -/
theorem C4_single_read_of_range_length :
    ∀ (env : Env) (s e : String) (a b : Int) (rules : YaraRules),
      pyIntHex s = some a → pyIntHex e = some b → a < b →
      (hash_address_range env s e).1.filter isReadMemoryEvent =
        [Event.readMemory a (b - a)] ∧
      (run_yara_on_address_range env s e rules).1.filter isReadMemoryEvent =
        [Event.readMemory a (b - a)] := by
  intro env s e a b rules hs he hab
  have hnab : ¬ a ≥ b := not_le.mpr hab
  have hdl : ∀ ml : List YaraMatch,
      (display_loop ml).1.filter isReadMemoryEvent = [] := by
    intro ml
    rw [List.filter_eq_nil_iff]
    intro ev hev
    obtain ⟨vals, rfl⟩ := display_loop_events ml ev hev
    simp [isReadMemoryEvent]
  constructor
  · simp only [hash_address_range, hs, he, pyIsNone, Bool.or_self,
      Bool.false_eq_true, if_false, if_neg hnab]
    rfl
  · simp only [run_yara_on_address_range, hs, he, pyIsNone, Bool.or_self,
      Bool.false_eq_true, if_false, if_neg hnab, M.bind_fst, imm_readMemory,
      rules_match, display_results]
    simp only [List.append_eq, List.nil_append, List.filter_append, hdl]
    split
    · simp [isReadMemoryEvent]
    · simp [isReadMemoryEvent, M.pure]

/-- C4 witness: hashing `0x40`–`0x50` reads 16 bytes at `0x40`, once. -/
theorem C4_single_read_of_range_length_witness :
    pyIntHex "40" = some 64 ∧ pyIntHex "50" = some 80 ∧ ((64 : Int) < 80) ∧
    (run_yara_on_address_range env_nomod "40" "50" rules_empty).1.filter
      isReadMemoryEvent = [Event.readMemory 64 (80 - 64)] :=
  ⟨by decide, by decide, by decide,
   (C4_single_read_of_range_length env_nomod "40" "50" 64 80 rules_empty
     (by decide) (by decide) (by decide)).2⟩

/-- C7: on the memyara success path every Yara match is reported in the
results table: the trace contains exactly one `table.add` per match record
— at row index 0, carrying the match's rule name and its three
string-match fields (`mkRow`) — and the string returned to the host is
`<n> matches` where `n` is the length of the match list returned by
`rules.match`.  Stated for both the address-range and the module paths. -/
theorem C7_all_matches_reported :
    (∀ (env : Env) (s e : String) (a b : Int) (rules : YaraRules),
      pyIntHex s = some a → pyIntHex e = some b → a < b →
      (∀ m ∈ rules.matchData (env.readMemoryF a (b - a)), wfMatch m = true) →
      run_yara_on_address_range env s e rules =
        ([Event.readMemory a (b - a),
          Event.yaraMatch (env.readMemoryF a (b - a)),
          Event.createTable "Yara matches"
            ["Rule", "Offset", "Identifier", "Offset"]] ++
         (rules.matchData (env.readMemoryF a (b - a))).map
           (fun m => Event.tableAdd 0 (mkRow m)),
         Except.ok (toString (rules.matchData (env.readMemoryF a (b - a))).length ++
           " matches"))) ∧
    (∀ (env : Env) (name : String) (module : ImmModule) (rules : YaraRules),
      pyExtSplit name ∈ (["exe", "sys", "dll"] : List String) →
      env.getModuleF name = some module →
      (∀ m ∈ rules.matchData
          (env.readMemoryF (module.baseAddress : Int) (module.size : Int)),
        wfMatch m = true) →
      run_yara_on_module env name rules =
        ([Event.getModule name,
          Event.readMemory (module.baseAddress : Int) (module.size : Int),
          Event.yaraMatch
            (env.readMemoryF (module.baseAddress : Int) (module.size : Int)),
          Event.createTable "Yara matches"
            ["Rule", "Offset", "Identifier", "Offset"]] ++
         (rules.matchData
           (env.readMemoryF (module.baseAddress : Int) (module.size : Int))).map
           (fun m => Event.tableAdd 0 (mkRow m)),
         Except.ok (toString (rules.matchData (env.readMemoryF
           (module.baseAddress : Int) (module.size : Int))).length ++
           " matches"))) := by
  constructor
  · intro env s e a b rules hs he hab hwf
    have hnab : ¬ a ≥ b := not_le.mpr hab
    have hdl := display_loop_of_wf _ hwf
    simp only [run_yara_on_address_range, hs, he, pyIsNone, Bool.or_self,
      Bool.false_eq_true, if_false, if_neg hnab, imm_readMemory, rules_match,
      display_results, hdl, M.bind, M.pure]
    simp
  · intro env name module rules hext hgm hwf
    have hdl := display_loop_of_wf _ hwf
    simp only [run_yara_on_module, if_pos hext, imm_getModule, hgm,
      imm_readMemory, rules_match, display_results, hdl, M.bind, M.pure]
    simp

/-- C7 witness: one match over the range `0x40`–`0x50` yields one table
row and the return string `1 matches`. -/
theorem C7_all_matches_reported_witness :
    (∀ m ∈ rules_one.matchData (env_yara.readMemoryF 64 (80 - 64)),
      wfMatch m = true) ∧
    run_yara_on_address_range env_yara "40" "50" rules_one =
      ([Event.readMemory 64 (80 - 64),
        Event.yaraMatch (env_yara.readMemoryF 64 (80 - 64)),
        Event.createTable "Yara matches"
          ["Rule", "Offset", "Identifier", "Offset"]] ++
       (rules_one.matchData (env_yara.readMemoryF 64 (80 - 64))).map
         (fun m => Event.tableAdd 0 (mkRow m)),
       Except.ok (toString (rules_one.matchData
         (env_yara.readMemoryF 64 (80 - 64))).length ++ " matches")) :=
  ⟨by decide,
   C7_all_matches_reported.1 env_yara "40" "50" 64 80 rules_one
     (by decide) (by decide) (by decide) (by decide)⟩

/-- C10: `_display_results` presupposes at least three `strings` entries
per match record — whenever it returns normally, every match in the list
has `strings` length at least 3 — and every table row it adds uses the
fixed row index 0. -/
theorem C10_display_results_presuppositions :
    ∀ (ml : List YaraMatch),
      ((display_results ml).2 = Except.ok () → ∀ m ∈ ml, 3 ≤ m.strings.length) ∧
      (∀ ev ∈ (display_results ml).1, ∀ r vals, ev = Event.tableAdd r vals →
        r = 0) := by
  intro ml
  constructor
  · intro h
    exact display_loop_ok_lengths ml h
  · intro ev hev r vals hev2
    have hsplit : ev = Event.createTable "Yara matches"
        ["Rule", "Offset", "Identifier", "Offset"] ∨
        ev ∈ (display_loop ml).1 := by
      simpa [display_results, M.bind_fst] using hev
    rcases hsplit with rfl | hm
    · exact absurd hev2 (by simp)
    · obtain ⟨vals2, rfl⟩ := display_loop_events ml ev hm
      injection hev2 with h1 h2
      exact h1.symm

/-- C10 witness: a match with exactly three `strings` entries is processed
and its row sits at index 0. -/
theorem C10_display_results_presuppositions_witness :
    3 ≤ match_ok.strings.length ∧ (0 : Nat) = 0 :=
  ⟨(C10_display_results_presuppositions [match_ok]).1 (by decide) match_ok
     (by decide),
   (C10_display_results_presuppositions [match_ok]).2
     (Event.tableAdd 0 [Cell.str "rule1", Cell.str "16", Cell.str "$a",
       Cell.bytes [144, 144]])
     (by decide) 0
     [Cell.str "rule1", Cell.str "16", Cell.str "$a", Cell.bytes [144, 144]]
     rfl⟩

/-- A leading argument word that does not start with `-` stops getopt
immediately: everything is positional. -/
theorem pygetopt_nonopt (s : String) (rest : List String) (so : String)
    (h : startsDash s = false) :
    pygetopt (s :: rest) so = Except.ok ([], s :: rest) := by
  show getopt_iter so.data (s :: rest).length [] (s :: rest) = _
  rw [List.length_cons]
  show getopt_iter so.data (Nat.succ rest.length) [] (s :: rest) = _
  simp [getopt_iter, h]

/-- C5: in memyara, rule compilation happens once and before any target
resolution: when getopt succeeds, the option scan does not end in `-h`,
the rules-file path is truthy and `yara.compile` fails with one of the two
caught Yara error kinds, `main` returns `<path> is an invalid Yara rules
file` and the entire event trace is the single `compile` interaction — so
`getModule`, `readMemory` and `match` are never invoked — for every
combination of `-m` / positional-address arguments. -/
theorem C5_compile_failure_before_resolution :
    ∀ (env : Env) (args : List String) (opts : List (String × String))
      (pos : List String) (m : Option String) (p : String) (e : PyExc),
      pygetopt args "hm:r:" = Except.ok (opts, pos) →
      memyara_opt_loop opts none none = OptScanMY.done m (some p) →
      p ≠ "" →
      env.yaraCompile p = Except.error e →
      isCaughtYara e = true →
      memyara_main env args =
        ([Event.compile p],
         Except.ok (p ++ " is an invalid Yara rules file")) := by
  intro env args opts pos m p e hg hloop hp hc hcaught
  have htr : pyTruthyOpt (some p) = true := by simp [pyTruthyOpt, hp]
  simp only [memyara_main, hg, hloop, htr, Bool.true_eq_false, if_false,
    Option.getD, hc, hcaught, if_true]
  rfl

/-- C5 witness: a bad rules file wins over `-m` and positional addresses. -/
theorem C5_compile_failure_before_resolution_witness :
    pygetopt ["-m", "k", "-r", "bad.yar", "40", "50"] "hm:r:" =
      Except.ok ([("-m", "k"), ("-r", "bad.yar")], ["40", "50"]) ∧
    memyara_main env_yara ["-m", "k", "-r", "bad.yar", "40", "50"] =
      ([Event.compile "bad.yar"],
       Except.ok ("bad.yar" ++ " is an invalid Yara rules file")) :=
  ⟨by decide,
   C5_compile_failure_before_resolution env_yara
     ["-m", "k", "-r", "bad.yar", "40", "50"]
     [("-m", "k"), ("-r", "bad.yar")] ["40", "50"] (some "k") "bad.yar"
     PyExc.yaraSyntaxError (by decide) (by decide) (by decide) rfl
     (by decide)⟩

/-- C6 counterexample: an input containing `-r` does not always make
memhash's getopt fail — here `-r` is consumed as the argument of `-m`, so
getopt succeeds and `main` returns a module-lookup message instead of the
claimed `Incorrect arguments (check log window)`. -/
theorem C6_counterexample :
    (memhash_main env_nomod ["-m", "-r"]).2 =
      Except.ok "-r.dll is not a loaded module" ∧
    (memhash_main env_nomod ["-m", "-r"]).2 ≠
      Except.ok "Incorrect arguments (check log window)" := by
  constructor <;> decide

/-- C6 (amended): memyara requires `-r` — when getopt succeeds and the
option scan ends with no `-h` and no `-r`, `main` returns the
rules-file-required message after only the usage logs; memhash's option
string accepts only `h` and `m:`, so a `-r` word encountered during
option scanning makes getopt fail, and any getopt failure makes memhash's
`main` return `Incorrect arguments (check log window)` after only the
usage logs.  (A `-r` that appears as an option argument or after a
positional word is not scanned as an option and does not fail.) -/
theorem C6_rules_option_dispatch :
    (∀ (env : Env) (args : List String) (opts : List (String × String))
        (pos : List String) (m : Option String),
      pygetopt args "hm:r:" = Except.ok (opts, pos) →
      memyara_opt_loop opts none none = OptScanMY.done m none →
      memyara_main env args =
        (usage_memyara.1,
         Except.ok "Incorrect arguments (Path to Yara rule file required)")) ∧
    (∀ (env : Env) (args : List String) (e : GetoptError),
      pygetopt args "hm:" = Except.error e →
      memhash_main env args =
        (usage_memhash.1, Except.ok "Incorrect arguments (check log window)")) ∧
    (∀ rest : List String,
      pygetopt ("-r" :: rest) "hm:" =
        Except.error (GetoptError.optNotRecognized 'r')) := by
  refine ⟨?_, ?_, ?_⟩
  · intro env args opts pos m hg hloop
    simp only [memyara_main, hg, hloop]
    rfl
  · intro env args e hg
    simp only [memhash_main, hg]
    rfl
  · intro rest
    rfl

/-- C6 witness: `-m x` alone triggers memyara's rules-required return;
`-x` makes memhash's getopt fail; `-r` at option position is rejected by
memhash's option string. -/
theorem C6_rules_option_dispatch_witness :
    memyara_main env_yara ["-m", "x"] =
      (usage_memyara.1,
       Except.ok "Incorrect arguments (Path to Yara rule file required)") ∧
    memhash_main env_nomod ["-x"] =
      (usage_memhash.1, Except.ok "Incorrect arguments (check log window)") ∧
    pygetopt ["-r", "foo"] "hm:" =
      Except.error (GetoptError.optNotRecognized 'r') :=
  ⟨C6_rules_option_dispatch.1 env_yara ["-m", "x"] [("-m", "x")] []
     (some "x") (by decide) (by decide),
   C6_rules_option_dispatch.2.1 env_nomod ["-x"]
     (GetoptError.optNotRecognized 'x') (by decide),
   C6_rules_option_dispatch.2.2 ["foo"]⟩

/-- An environment in which the target module is loaded but its on-disk
file makes `pefile.PE` raise `PEFormatError`. -/
def env_pebad : Env :=
  { getModuleF := fun _ => some mod_w
    readMemoryF := fun _ _ => []
    peF := fun _ => Except.error (PyExc.peFormatError "Invalid NT Headers signature.")
    md5hex := fun _ => ""
    yaraCompile := fun _ => Except.ok rules_empty }

/-- C1 counterexample: `hash_module`'s unguarded `PE(name=module.getPath())`
call lets a `PEFormatError` propagate out of memhash's `main` instead of
resolving to a string result. -/
theorem C1_counterexample :
    (memhash_main env_pebad ["-m", "fake"]).2 =
      Except.error (PyExc.peFormatError "Invalid NT Headers signature.") := by
  decide

/-- C1 (amended): each of the listed validation failures — invalid hex
address, start ≥ end, unresolvable module name, missing rules path,
rules file rejected with a caught Yara error kind, unrecognized option —
yields an early string return from the two `main` entry points; but an
exception raised by `PE(...)` inside `hash_module` (or by `yara.compile`
outside the two caught classes) propagates to the host. -/
theorem C1_listed_failures_return_strings :
    (∀ (env : Env) (s e : String),
      startsDash s = false → pyIntHex s = none →
      (memhash_main env [s, e]).2 =
        Except.ok ("Invalid start address (0x" ++ s ++ ")")) ∧
    (∀ (env : Env) (s e : String) (a b : Int),
      startsDash s = false → pyIntHex s = some a → pyIntHex e = some b →
      a ≥ b →
      (memhash_main env [s, e]).2 =
        Except.ok "End address must be greater than start address") ∧
    (∀ (env : Env) (name : String),
      name ≠ "" →
      pyExtSplit name ∉ (["exe", "sys", "dll"] : List String) →
      env.getModuleF (name ++ ".dll") = none →
      (memhash_main env ["-m", name]).2 =
        Except.ok ((name ++ ".dll") ++ " is not a loaded module")) ∧
    (∀ (env : Env) (rest : List String),
      (memhash_main env ("-r" :: rest)).2 =
        Except.ok "Incorrect arguments (check log window)") ∧
    (∀ (env : Env) (name : String),
      (memyara_main env ["-m", name]).2 =
        Except.ok "Incorrect arguments (Path to Yara rule file required)") ∧
    (∀ (env : Env) (p : String) (e : PyExc),
      p ≠ "" → env.yaraCompile p = Except.error e → isCaughtYara e = true →
      (memyara_main env ["-r", p]).2 =
        Except.ok (p ++ " is an invalid Yara rules file")) := by
  refine ⟨?_, ?_, ?_, ?_, ?_, ?_⟩
  · intro env s e hsd hs
    have hg := pygetopt_nonopt s [e] "hm:" hsd
    simp only [memhash_main, hg, memhash_opt_loop, hash_address_range, hs]
    rfl
  · intro env s e a b hsd hs he hab
    have hg := pygetopt_nonopt s [e] "hm:" hsd
    simp only [memhash_main, hg, memhash_opt_loop, hash_address_range, hs, he,
      pyIsNone, Bool.or_self, Bool.false_eq_true, if_false, if_pos hab]
    rfl
  · intro env name hne hext hgm
    have kb : memhash_main env ["-m", name] =
        (if name = "" then
          (M.bind usage_memhash fun _ =>
           M.pure "Incorrect arguments (check log window)")
         else hash_module env name) := rfl
    rw [kb, if_neg hne]
    simp only [hash_module, if_neg hext, imm_getModule, M.bind_snd, hgm]
    rfl
  · intro env rest
    rfl
  · intro env name
    rfl
  · intro env p e hp hc hcaught
    have htr : pyTruthyOpt (some p) = true := by simp [pyTruthyOpt, hp]
    have kg : pygetopt ["-r", p] "hm:r:" = Except.ok ([("-r", p)], []) := rfl
    have kl : memyara_opt_loop [("-r", p)] none none =
        OptScanMY.done none (some p) := rfl
    simp only [memyara_main, kg, kl, htr, Bool.true_eq_false, if_false,
      Option.getD, hc, hcaught, if_true]
    rfl

/-- C1 witness: the six early string returns at concrete inputs. -/
theorem C1_listed_failures_return_strings_witness :
    (memhash_main env_nomod ["zz", "50"]).2 =
      Except.ok ("Invalid start address (0x" ++ "zz" ++ ")") ∧
    (memhash_main env_nomod ["50", "40"]).2 =
      Except.ok "End address must be greater than start address" ∧
    (memhash_main env_nomod ["-m", "kernel32"]).2 =
      Except.ok (("kernel32" ++ ".dll") ++ " is not a loaded module") ∧
    (memhash_main env_nomod ["-r", "rules"]).2 =
      Except.ok "Incorrect arguments (check log window)" ∧
    (memyara_main env_yara ["-m", "kernel32"]).2 =
      Except.ok "Incorrect arguments (Path to Yara rule file required)" ∧
    (memyara_main env_yara ["-r", "bad.yar"]).2 =
      Except.ok ("bad.yar" ++ " is an invalid Yara rules file") :=
  ⟨C1_listed_failures_return_strings.1 env_nomod "zz" "50" (by decide)
     (by decide),
   C1_listed_failures_return_strings.2.1 env_nomod "50" "40" 80 64
     (by decide) (by decide) (by decide) (by decide),
   C1_listed_failures_return_strings.2.2.1 env_nomod "kernel32" (by decide)
     (by decide) rfl,
   C1_listed_failures_return_strings.2.2.2.1 env_nomod ["rules"],
   C1_listed_failures_return_strings.2.2.2.2.1 env_yara "kernel32",
   C1_listed_failures_return_strings.2.2.2.2.2 env_yara "bad.yar"
     PyExc.yaraSyntaxError (by decide) rfl (by decide)⟩
